import Mathlib

/-!
Verification of the energy-metering engine of `energy-leaderboard-runner`.

The Python sources under `src/energy_meter/` are shallowly embedded below.
Real-valued quantities (`time.time()` results, power samples, energy counters)
are modelled as rationals; machine interaction (NVML calls, the filesystem,
subprocess output) is modelled by passing the observed outcomes as explicit
arguments.  Each backend's `stop()` is a pure function of the sampled data and
the recorded wall-clock timestamps, exactly mirroring the arithmetic of the
source.
-/

/-- The boundary value returned by every backend's `stop()`
(`energy_meter/base.py`): energy in watt-hours, duration in seconds and the
sampling cadence in milliseconds. -/
structure EnergyResult where
  energy_wh_raw : ℚ
  duration_s : ℚ
  sampling_ms : ℕ
  deriving DecidableEq, Repr

/-- The trapezoidal-integration loop shared verbatim by
`NvmlMeter.stop`, `RocmSmiMeter.stop` and `MacosMeter.stop`:

    energy_wh = 0.0
    for i in range(len(power_watts) - 1):
        avg_power = (power_watts[i] + power_watts[i + 1]) / 2.0
        energy_wh += avg_power * dt_hours

`power_watts[i]` is embedded as `getD i 0`; the loop bound keeps every index
in range, so the default is never consulted. -/
def trapezoid (power_watts : List ℚ) (dt_hours : ℚ) : ℚ :=
  (List.range (power_watts.length - 1)).foldl
    (fun energy_wh i =>
      energy_wh + ((power_watts.getD i 0 + power_watts.getD (i + 1) 0) / 2) * dt_hours) 0

/-- `NvmlMeter.stop` (`nvml_meter.py`, lines 100-151) as a function of the
state at stop time: the sampling interval, the milliwatt samples the polling
thread appended, and the recorded start/stop wall-clock times. -/
def NvmlMeter.stop (sampling_ms : ℕ) (power_samples : List ℚ)
    (start_time stop_time : ℚ) : EnergyResult :=
  let duration_s := stop_time - start_time
  if power_samples.length < 2 then
    ⟨0, duration_s, sampling_ms⟩
  else
    let power_watts := power_samples.map (fun p => p / 1000)
    let dt_hours := ((sampling_ms : ℚ) / 1000) / 3600
    ⟨trapezoid power_watts dt_hours, duration_s, sampling_ms⟩

/-- `RocmSmiMeter.stop` (`rocm_smi_meter.py`, lines 123-163): identical to the
NVML variant except that the samples are already in watts (no division by
1000). -/
def RocmSmiMeter.stop (sampling_ms : ℕ) (power_samples : List ℚ)
    (start_time stop_time : ℚ) : EnergyResult :=
  let duration_s := stop_time - start_time
  if power_samples.length < 2 then
    ⟨0, duration_s, sampling_ms⟩
  else
    let power_watts := power_samples
    let dt_hours := ((sampling_ms : ℚ) / 1000) / 3600
    ⟨trapezoid power_watts dt_hours, duration_s, sampling_ms⟩

/-- `RaplMeter.stop` (`rapl_meter.py`, lines 108-146) as a function of the
counter value recorded by `start()`, the counter value re-read at stop, and
the wall-clock timestamps. -/
def RaplMeter.stop (sampling_ms : ℕ) (start_energy_uj stop_energy_uj : ℚ)
    (start_time stop_time : ℚ) : EnergyResult :=
  let duration_s := stop_time - start_time
  let energy_diff_uj := stop_energy_uj - start_energy_uj
  let energy_diff_uj := if energy_diff_uj < 0 then energy_diff_uj + 2 ^ 32 else energy_diff_uj
  let energy_wh := energy_diff_uj / 3600000000
  ⟨energy_wh, duration_s, sampling_ms⟩

/-- The four concrete meter classes the selector can return. -/
inductive MeterKind where
  | macos
  | nvml
  | rocm
  | rapl
  deriving DecidableEq, Repr

/-- `MacosMeter.is_available` (`macos_meter.py`, lines 35-42): it only tests
`sys.platform == "darwin"`; no other input is consulted. -/
def MacosMeter.is_available (platform : String) : Bool :=
  platform == "darwin"

/-- `get_platform_meter` (`integrator.py`, lines 13-70) as a function of
`sys.platform` and the probe outcomes of the three Linux backends; exceptions
become `Except.error`.  The macOS branch only returns when the meter reports
itself available, otherwise control falls through to the Linux checks and the
final raise, exactly as in the source. -/
def get_platform_meter (platform : String)
    (nvmlAvail rocmAvail raplAvail : Bool) : Except String MeterKind :=
  if platform == "darwin" && MacosMeter.is_available platform then
    Except.ok MeterKind.macos
  else if platform == "linux" then
    if nvmlAvail then Except.ok MeterKind.nvml
    else if rocmAvail then Except.ok MeterKind.rocm
    else if raplAvail then Except.ok MeterKind.rapl
    else Except.error "No energy meter available on this Linux system."
  else
    Except.error ("No energy meter available for platform: " ++ platform)

/-- First backend of a probe list whose availability flag is true; the
reference behaviour against which the selector's Linux branch is checked. -/
def firstAvailable (probes : List (Bool × MeterKind)) : Option MeterKind :=
  (probes.find? (fun pr => pr.1)).map (fun pr => pr.2)

/-- Python regex `\s` restricted to ASCII: space, tab, newline, carriage
return, vertical tab, form feed. -/
def isPyWhitespace (c : Char) : Bool :=
  c = ' ' || c = '\t' || c = '\n' || c = '\r' || c = '\x0b' || c = '\x0c'

/-- Python regex character class `[\d.]` (with `\d` modelled as the ASCII
digits appearing in `powermetrics` output). -/
def isDigitDotChar (c : Char) : Bool :=
  c.isDigit || c = '.'

/-- Consume an exact literal from the front of `s`, returning the rest. -/
def matchLiteral : List Char → List Char → Option (List Char)
  | [], s => some s
  | _ :: _, [] => none
  | c :: cs, d :: ds => if c = d then matchLiteral cs ds else none

/-- Attempt the regex `LIT\s+([\d.]+)\s+mW` anchored at the head of `s`,
returning the capture group `[\d.]+` on success.  Greedy runs are exact here
because the classes `\s` and `[\d.]` are disjoint from each other and from
the trailing literal `mW`. -/
def matchPowerPatternAt (lit : List Char) (s : List Char) : Option (List Char) :=
  match matchLiteral lit s with
  | none => none
  | some r0 =>
    if (r0.takeWhile isPyWhitespace).isEmpty then none
    else
      let r1 := r0.dropWhile isPyWhitespace
      let cap := r1.takeWhile isDigitDotChar
      if cap.isEmpty then none
      else
        let r2 := r1.dropWhile isDigitDotChar
        if (r2.takeWhile isPyWhitespace).isEmpty then none
        else
          match r2.dropWhile isPyWhitespace with
          | 'm' :: 'W' :: _ => some cap
          | _ => none

/-- `re.search` of `LIT\s+([\d.]+)\s+mW` in a line: leftmost starting
position at which the whole pattern matches wins. -/
def searchPowerPattern (lit : List Char) : List Char → Option (List Char)
  | [] => matchPowerPatternAt lit []
  | c :: rest =>
    match matchPowerPatternAt lit (c :: rest) with
    | some cap => some cap
    | none => searchPowerPattern lit rest

/-- Split a character list on every dot. -/
def splitOnDot : List Char → List (List Char)
  | [] => [[]]
  | c :: rest =>
    if c = '.' then [] :: splitOnDot rest
    else
      match splitOnDot rest with
      | [] => [[c]]
      | p :: ps => (c :: p) :: ps

/-- Numeric value of a digit run. -/
def digitsVal (ds : List Char) : ℕ :=
  ds.foldl (fun a c => a * 10 + (c.toNat - 48)) 0

/-- Python `float()` applied to a capture drawn from the class `[\d.]+`:
defined when the string has at least one digit and at most one dot
("42", "1.", ".5" parse; ".", "1.2.3" raise ValueError, which the source
catches). -/
def pyFloat (cap : List Char) : Option ℚ :=
  match splitOnDot cap with
  | [ds] => if ds.isEmpty then none else some (digitsVal ds : ℚ)
  | [ip, fp] =>
    if ip.isEmpty && fp.isEmpty then none
    else some ((digitsVal ip : ℚ) + (digitsVal fp : ℚ) / (10 : ℚ) ^ fp.length)
  | _ => none

/-- Literal part of `Combined Power \(CPU \+ GPU \+ ANE\):\s+([\d.]+)\s+mW`. -/
def combinedPowerLit : List Char := "Combined Power (CPU + GPU + ANE):".data

/-- Literal part of `CPU Power:\s+([\d.]+)\s+mW`. -/
def cpuPowerLit : List Char := "CPU Power:".data

/-- Literal part of `GPU Power:\s+([\d.]+)\s+mW`. -/
def gpuPowerLit : List Char := "GPU Power:".data

/-- Literal part of `Package Power:\s+([\d.]+)\s+mW`. -/
def packagePowerLit : List Char := "Package Power:".data

/-- The `for pattern in patterns[1:]` loop of `MacosMeter._parse_power_samples`
on one line: try each fragment pattern in order; on a regex match whose capture
converts, break with that value; on a failed conversion or no match, continue
with the next pattern. -/
def tryFragmentPatterns : List (List Char) → List Char → Option ℚ
  | [], _ => none
  | lit :: rest, line =>
    match searchPowerPattern lit line with
    | none => tryFragmentPatterns rest line
    | some cap =>
      match pyFloat cap with
      | some v => some v
      | none => tryFragmentPatterns rest line

/-- Samples contributed by one captured line
(`macos_meter.py`, lines 195-215): the combined-power pattern is searched
first; a successful conversion appends that value and `continue`s to the next
line; otherwise control falls into the fragment loop. -/
def parsePowerLine (line : List Char) : List ℚ :=
  match searchPowerPattern combinedPowerLit line with
  | some cap =>
    match pyFloat cap with
    | some v => [v]
    | none =>
      match tryFragmentPatterns [cpuPowerLit, gpuPowerLit, packagePowerLit] line with
      | some v => [v]
      | none => []
  | none =>
    match tryFragmentPatterns [cpuPowerLit, gpuPowerLit, packagePowerLit] line with
    | some v => [v]
    | none => []

/-- `MacosMeter._parse_power_samples` (`macos_meter.py`, lines 177-217):
per-line contributions appended in line order. -/
def MacosMeter.parse_power_samples (output_lines : List String) : List ℚ :=
  output_lines.flatMap (fun line => parsePowerLine line.data)

/-- `MacosMeter.stop` (`macos_meter.py`, lines 104-175) as a function of the
state at stop time: the sampling interval, the captured output lines, and the
recorded wall-clock times.  Unlike the GPU backends it has a single-sample
fallback treating the lone sample as constant average power. -/
def MacosMeter.stop (sampling_ms : ℕ) (output_lines : List String)
    (start_time stop_time : ℚ) : EnergyResult :=
  let duration_s := stop_time - start_time
  let power_samples := MacosMeter.parse_power_samples output_lines
  if power_samples.length < 2 then
    if power_samples.length = 1 then
      let avg_power_watts := power_samples.getD 0 0 / 1000
      let energy_wh := avg_power_watts * (duration_s / 3600)
      ⟨energy_wh, duration_s, sampling_ms⟩
    else
      ⟨0, duration_s, sampling_ms⟩
  else
    let power_watts := power_samples.map (fun p => p / 1000)
    let dt_hours := ((sampling_ms : ℚ) / 1000) / 3600
    ⟨trapezoid power_watts dt_hours, duration_s, sampling_ms⟩

/-- The spec's reading of one line (§4.3): the figure produced by a pattern is
a regex match whose capture converts to a number; a combined figure takes
precedence, and fragment figures are consulted, first match winning in their
fixed order, only when no combined figure is present. -/
def figureOf (lit : List Char) (line : List Char) : Option ℚ :=
  (searchPowerPattern lit line).bind pyFloat

/-- Spec-side per-line parse: combined figure, else first fragment figure. -/
def lineFigureSpec (line : List Char) : Option ℚ :=
  match figureOf combinedPowerLit line with
  | some v => some v
  | none => [cpuPowerLit, gpuPowerLit, packagePowerLit].findSome? (fun lit => figureOf lit line)

/-- The spec's integrator (§4.7), written from its words: `Σ over consecutive
pairs of (avg(p_i, p_{i+1}) × dt_hours)` for a sequence of power values in
watts. -/
def integratorSpec (power_watts : List ℚ) (dt_hours : ℚ) : ℚ :=
  ∑ i in Finset.range (power_watts.length - 1),
    ((power_watts.getD i 0 + power_watts.getD (i + 1) 0) / 2) * dt_hours

/-- The spec's EnergyResult invariant (§3): non-negative energy and duration,
positive sampling interval. -/
def EnergyResult.valid (r : EnergyResult) : Prop :=
  0 ≤ r.energy_wh_raw ∧ 0 ≤ r.duration_s ∧ 0 < r.sampling_ms

/-- Exception taxonomy relevant to the claims: Python's `RuntimeError` and
`PermissionError` as raised by `rapl_meter.py`. -/
inductive PyError where
  | runtimeError (msg : String)
  | permissionError (msg : String)
  deriving DecidableEq, Repr

/-- Observed outcomes of the pynvml calls made by `NvmlMeter.is_available`:
whether the import succeeded, and the result (value or exception) of
`nvmlInit`, `nvmlDeviceGetCount` and `nvmlShutdown`. -/
structure NvmlEnv where
  nvml_available : Bool
  initResult : Except String Unit
  deviceCountResult : Except String ℕ
  shutdownResult : Except String Unit

/-- `NvmlMeter.is_available` (`nvml_meter.py`, lines 42-58): false when
the module import failed; otherwise init, count and shutdown run inside a
`try/except Exception` whose handler returns false; a positive device count
is required. -/
def NvmlMeter.is_available (env : NvmlEnv) : Except String Bool :=
  if env.nvml_available = false then Except.ok false
  else
    match env.initResult with
    | Except.error _ => Except.ok false
    | Except.ok _ =>
      match env.deviceCountResult with
      | Except.error _ => Except.ok false
      | Except.ok device_count =>
        match env.shutdownResult with
        | Except.error _ => Except.ok false
        | Except.ok _ => Except.ok (decide (device_count > 0))

/-- `RocmSmiMeter.is_available` (`rocm_smi_meter.py`, lines 38-45):
`shutil.which("rocm-smi") is not None`; `shutil.which` returns `None` rather
than raising when the binary is missing. -/
def RocmSmiMeter.is_available (whichRocmSmi : Option String) : Except String Bool :=
  Except.ok whichRocmSmi.isSome

/-- One RAPL powercap zone as observed through the filesystem: whether its
`energy_uj` entry exists, whether `os.access(..., R_OK)` grants read, and the
outcome of actually reading it. -/
structure RaplZone where
  energy_uj_exists : Bool
  energy_uj_readable : Bool
  readResult : Except String ℚ

/-- The zone scan of `RaplMeter.is_available` (`rapl_meter.py`, lines 34-56):
first glob-enumerated zone whose `energy_uj` entry exists (cached as
`self.rapl_path`), `none` when the powercap root is missing or no zone
qualifies. -/
def RaplMeter.findZone (powercapExists : Bool) (rapl_zones : List RaplZone) :
    Option RaplZone :=
  if powercapExists = false then none
  else rapl_zones.find? (fun zone => zone.energy_uj_exists)

/-- `RaplMeter.is_available`: the existence checks involved return booleans
rather than raising, so the probe is a pure `ok`. -/
def RaplMeter.is_available (powercapExists : Bool) (rapl_zones : List RaplZone) :
    Except String Bool :=
  Except.ok (RaplMeter.findZone powercapExists rapl_zones).isSome

/-- `MacosMeter.is_available` with the probe-call convention of the other
backends: its body performs no failing operation, so it is a pure `ok`. -/
def MacosMeter.is_available_probe (platform : String) : Except String Bool :=
  Except.ok (MacosMeter.is_available platform)

/-- The state `RaplMeter.start` records on success. -/
structure RaplStartState where
  start_time : ℚ
  start_energy_uj : ℚ

/-- `RaplMeter.start` (`rapl_meter.py`, lines 58-84): re-probes availability
(generic `RuntimeError` when no zone is found), then explicitly checks read
permission with `os.access` (distinct `PermissionError`), then records the
wall-clock time and reads the counter (a failed read raises `RuntimeError`
from `_read_energy_uj`). -/
def RaplMeter.start (powercapExists : Bool) (rapl_zones : List RaplZone)
    (t : ℚ) : Except PyError RaplStartState :=
  match RaplMeter.findZone powercapExists rapl_zones with
  | none => Except.error (PyError.runtimeError "RAPL interface not available.")
  | some zone =>
    if zone.energy_uj_readable = false then
      Except.error (PyError.permissionError "Permission denied reading energy_uj.")
    else
      match zone.readResult with
      | Except.ok v => Except.ok ⟨t, v⟩
      | Except.error e =>
        Except.error (PyError.runtimeError ("Failed to read RAPL energy counter: " ++ e))

/-- `(List.range n).foldl` accumulation of `g` is the `Finset.range` sum. -/
theorem foldl_range_add_eq_sum (g : ℕ → ℚ) (n : ℕ) :
    (List.range n).foldl (fun a i => a + g i) 0 = ∑ i in Finset.range n, g i := by
  induction n with
  | zero => simp
  | succ m ih =>
    rw [List.range_succ, List.foldl_append, ih, Finset.sum_range_succ]
    simp

/-- The trapezoid loop equals the spec's closed-form sum over consecutive
pairs. -/
theorem trapezoid_eq_sum (ps : List ℚ) (dt : ℚ) :
    trapezoid ps dt = integratorSpec ps dt := by
  unfold trapezoid integratorSpec
  exact foldl_range_add_eq_sum (fun i => ((ps.getD i 0 + ps.getD (i + 1) 0) / 2) * dt) _

/-- Indexing with default 0 commutes with the milliwatt-to-watt conversion. -/
theorem getD_map_div (l : List ℚ) : ∀ i : ℕ,
    (l.map (fun p => p / 1000)).getD i 0 = l.getD i 0 / 1000 := by
  induction l with
  | nil => intro i; simp [List.getD]
  | cons a tl ih =>
    intro i
    cases i with
    | zero => rfl
    | succ j => simpa using ih j

/-- Indexing a list of non-negative values with default 0 is non-negative. -/
theorem getD_nonneg (l : List ℚ) (h : ∀ p ∈ l, 0 ≤ p) : ∀ i : ℕ, 0 ≤ l.getD i 0 := by
  induction l with
  | nil => intro i; simp [List.getD]
  | cons a tl ih =>
    intro i
    cases i with
    | zero => simpa using h a (List.mem_cons_self a tl)
    | succ j => simpa using ih (fun p hp => h p (List.mem_cons_of_mem a hp)) j

/-- The trapezoid loop of non-negative samples at a non-negative step is
non-negative. -/
theorem trapezoid_nonneg (ps : List ℚ) (dt : ℚ) (hdt : 0 ≤ dt)
    (hps : ∀ p ∈ ps, 0 ≤ p) : 0 ≤ trapezoid ps dt := by
  rw [trapezoid_eq_sum]
  refine Finset.sum_nonneg fun i _ => ?_
  have h1 := getD_nonneg ps hps i
  have h2 := getD_nonneg ps hps (i + 1)
  exact mul_nonneg (div_nonneg (by linarith) (by norm_num)) hdt

/-- Milliwatt-to-watt conversion preserves non-negativity of every sample. -/
theorem map_div_nonneg (l : List ℚ) (h : ∀ p ∈ l, 0 ≤ p) :
    ∀ p ∈ l.map (fun p => p / 1000), 0 ≤ p := by
  intro p hp
  rw [List.mem_map] at hp
  obtain ⟨a, ha, rfl⟩ := hp
  exact div_nonneg (h a ha) (by norm_num)

/-- C2: the CPU cumulative-counter backend converts the counter difference to
watt-hours dividing by 3.6e9, adding exactly one 2^32 wrap period when the raw
difference is negative; the spec's wraparound example evaluates as claimed. -/
theorem C2_rapl_wraparound (ms : ℕ) (s e t0 t1 : ℚ) :
    (RaplMeter.stop ms s e t0 t1).energy_wh_raw
        = (if 0 ≤ e - s then e - s else e - s + 2 ^ 32) / 3600000000
      ∧ (RaplMeter.stop ms 4000000000 1000000000 t0 t1).energy_wh_raw
        = 1294967296 / 3600000000 := by
  constructor
  · unfold RaplMeter.stop
    dsimp only
    rcases lt_or_le (e - s) 0 with h | h
    · rw [if_pos h, if_neg (not_le.mpr h)]
    · rw [if_neg (not_lt.mpr h), if_pos h]
  · unfold RaplMeter.stop
    norm_num

/-- C3: on a Linux platform the selector returns the first of
NVML → ROCm-smi → RAPL whose probe succeeds (an error when none does), and
whenever both GPU probes succeed the NVML backend wins. -/
theorem C3_linux_priority (n r p : Bool) :
    get_platform_meter "linux" n r p
        = (match firstAvailable [(n, MeterKind.nvml), (r, MeterKind.rocm), (p, MeterKind.rapl)] with
           | some k => Except.ok k
           | none => Except.error "No energy meter available on this Linux system.")
      ∧ get_platform_meter "linux" true true p = Except.ok MeterKind.nvml := by
  constructor
  · cases n <;> cases r <;> cases p <;> rfl
  · rfl

/-- C10: the OS-utility backend's availability probe tests only the platform
identifier, so on Darwin the probe is unconditionally true and the selector
always returns the macOS meter regardless of every other probe outcome. -/
theorem C10_darwin_always_macos (n r p : Bool) :
    MacosMeter.is_available "darwin" = true
      ∧ get_platform_meter "darwin" n r p = Except.ok MeterKind.macos := by
  exact ⟨rfl, rfl⟩

/-- C1: for every sample sequence of length at least 2, `stop()` of the NVML,
ROCm-smi and macOS backends returns exactly the spec integrator's sum over
consecutive pairs at `dt_hours = (sampling_ms / 1000) / 3600`, the NVML and
macOS backends dividing each raw milliwatt sample by 1000 first and the
ROCm-smi backend applying no conversion; samples of 10, 20 and 30 watts at
100 ms spacing yield `(15 + 25) * (100 / 3600000)` watt-hours. -/
theorem C1_stop_is_trapezoidal_sum (mwSamples wSamples : List ℚ)
    (output_lines : List String) (ms : ℕ) (t0 t1 : ℚ)
    (hn : 2 ≤ mwSamples.length) (hr : 2 ≤ wSamples.length)
    (hm : 2 ≤ (MacosMeter.parse_power_samples output_lines).length) :
    (NvmlMeter.stop ms mwSamples t0 t1).energy_wh_raw
        = integratorSpec (mwSamples.map (fun p => p / 1000)) (((ms : ℚ) / 1000) / 3600)
      ∧ (RocmSmiMeter.stop ms wSamples t0 t1).energy_wh_raw
        = integratorSpec wSamples (((ms : ℚ) / 1000) / 3600)
      ∧ (MacosMeter.stop ms output_lines t0 t1).energy_wh_raw
        = integratorSpec ((MacosMeter.parse_power_samples output_lines).map (fun p => p / 1000))
            (((ms : ℚ) / 1000) / 3600)
      ∧ (RocmSmiMeter.stop 100 [10, 20, 30] t0 t1).energy_wh_raw
        = (15 + 25) * (100 / 3600000) := by
  refine ⟨?_, ?_, ?_, ?_⟩
  · rw [NvmlMeter.stop, if_neg (by omega)]
    exact trapezoid_eq_sum _ _
  · rw [RocmSmiMeter.stop, if_neg (by omega)]
    exact trapezoid_eq_sum _ _
  · rw [MacosMeter.stop, if_neg (by omega)]
    exact trapezoid_eq_sum _ _
  · norm_num [RocmSmiMeter.stop, trapezoid, List.range_succ, List.getD]

/-- Witness for C1 at concrete inputs. -/
theorem C1_stop_is_trapezoidal_sum_witness :
    2 ≤ ([10, 20, 30] : List ℚ).length
  ∧ 2 ≤ (MacosMeter.parse_power_samples
        ["Combined Power (CPU + GPU + ANE): 10 mW", "CPU Power: 20 mW"]).length
  ∧ ((NvmlMeter.stop 100 [10, 20, 30] 0 1).energy_wh_raw
        = integratorSpec (([10, 20, 30] : List ℚ).map (fun p => p / 1000))
            ((((100 : ℕ) : ℚ) / 1000) / 3600)
      ∧ (RocmSmiMeter.stop 100 [10, 20, 30] 0 1).energy_wh_raw
        = integratorSpec [10, 20, 30] ((((100 : ℕ) : ℚ) / 1000) / 3600)
      ∧ (MacosMeter.stop 100
            ["Combined Power (CPU + GPU + ANE): 10 mW", "CPU Power: 20 mW"] 0 1).energy_wh_raw
        = integratorSpec ((MacosMeter.parse_power_samples
              ["Combined Power (CPU + GPU + ANE): 10 mW", "CPU Power: 20 mW"]).map
                (fun p => p / 1000))
            ((((100 : ℕ) : ℚ) / 1000) / 3600)
      ∧ (RocmSmiMeter.stop 100 [10, 20, 30] 0 1).energy_wh_raw
        = (15 + 25) * (100 / 3600000)) :=
  ⟨by decide, by decide,
    C1_stop_is_trapezoidal_sum [10, 20, 30] [10, 20, 30]
      ["Combined Power (CPU + GPU + ANE): 10 mW", "CPU Power: 20 mW"] 100 0 1
      (by decide) (by decide) (by decide)⟩

/-- C4: the macOS backend alone has a single-sample fallback: when the parsed
sample sequence is exactly one milliwatt value `s`, `stop()` returns
`(s / 1000) * (duration_s / 3600)` watt-hours for the wall-clock duration. -/
theorem C4_macos_single_sample (output_lines : List String) (s : ℚ) (ms : ℕ)
    (t0 t1 : ℚ) (h : MacosMeter.parse_power_samples output_lines = [s]) :
    (MacosMeter.stop ms output_lines t0 t1).energy_wh_raw
      = (s / 1000) * ((t1 - t0) / 3600) := by
  norm_num [MacosMeter.stop, h, List.getD]

/-- Witness for C4: one 5000 mW sample over a half-second window. -/
theorem C4_macos_single_sample_witness :
    MacosMeter.parse_power_samples ["Combined Power (CPU + GPU + ANE): 5000 mW"] = [5000]
  ∧ (MacosMeter.stop 100 ["Combined Power (CPU + GPU + ANE): 5000 mW"] 0 (1/2)).energy_wh_raw
      = (5000 / 1000) * ((1/2 - 0) / 3600) :=
  ⟨by decide,
    C4_macos_single_sample ["Combined Power (CPU + GPU + ANE): 5000 mW"] 5000 100 0 (1/2)
      (by decide)⟩

/-- C5: the NVML and ROCm-smi backends have no single-sample fallback: with
fewer than two samples (including exactly one), `stop()` reports zero energy
while the duration is still the wall-clock delta. -/
theorem C5_gpu_zero_energy_fallback (mwSamples wSamples : List ℚ) (ms : ℕ)
    (t0 t1 : ℚ) (hn : mwSamples.length < 2) (hr : wSamples.length < 2) :
    NvmlMeter.stop ms mwSamples t0 t1 = ⟨0, t1 - t0, ms⟩
  ∧ RocmSmiMeter.stop ms wSamples t0 t1 = ⟨0, t1 - t0, ms⟩ := by
  constructor
  · rw [NvmlMeter.stop, if_pos hn]
  · rw [RocmSmiMeter.stop, if_pos hr]

/-- Witness for C5 with exactly one sample in each backend. -/
theorem C5_gpu_zero_energy_fallback_witness :
    ([7] : List ℚ).length < 2
  ∧ ([5] : List ℚ).length < 2
  ∧ (NvmlMeter.stop 100 [7] 0 3 = ⟨0, 3 - 0, 100⟩
      ∧ RocmSmiMeter.stop 100 [5] 0 3 = ⟨0, 3 - 0, 100⟩) :=
  ⟨by decide, by decide,
    C5_gpu_zero_energy_fallback [7] [5] 100 0 3 (by decide) (by decide)⟩

/-- The fragment loop equals the first fragment figure in pattern order. -/
theorem tryFragmentPatterns_eq_findSome (lits : List (List Char)) (line : List Char) :
    tryFragmentPatterns lits line = lits.findSome? (fun lit => figureOf lit line) := by
  induction lits with
  | nil => rfl
  | cons lit rest ih =>
    rw [tryFragmentPatterns, List.findSome?_cons]
    rcases hs : searchPowerPattern lit line with _ | cap
    · simp [figureOf, hs, ih]
    · rcases hp : pyFloat cap with _ | w
      · simp [figureOf, hs, hp, ih]
      · simp [figureOf, hs, hp]

/-- One captured line contributes exactly the spec-side figure of that line:
the combined figure when present, otherwise the first fragment figure. -/
theorem parsePowerLine_eq_spec (line : List Char) :
    parsePowerLine line = (lineFigureSpec line).toList := by
  rw [parsePowerLine, lineFigureSpec]
  rcases hs : searchPowerPattern combinedPowerLit line with _ | cap
  · rw [tryFragmentPatterns_eq_findSome]
    rcases hf : [cpuPowerLit, gpuPowerLit, packagePowerLit].findSome?
        (fun lit => figureOf lit line) with _ | v
    · simp [figureOf, hs, hf]
    · simp [figureOf, hs, hf]
  · rcases hp : pyFloat cap with _ | v
    · rw [tryFragmentPatterns_eq_findSome]
      rcases hf : [cpuPowerLit, gpuPowerLit, packagePowerLit].findSome?
          (fun lit => figureOf lit line) with _ | w
      · simp [figureOf, hs, hp, hf]
      · simp [figureOf, hs, hp, hf]
    · simp [figureOf, hs, hp]

/-- C8: the parser realises the spec's precedence rule on every line: a line
with a combined CPU+GPU+ANE figure yields exactly that figure (its fragment
figures are ignored), and the fragment patterns are consulted, in their fixed
order with the first convertible match winning, only for lines without a
combined figure. -/
theorem C8_combined_precedence (output_lines : List String) :
    MacosMeter.parse_power_samples output_lines
      = output_lines.flatMap (fun line => (lineFigureSpec line.data).toList) := by
  rw [MacosMeter.parse_power_samples]
  simp only [parsePowerLine_eq_spec]

/-- Every value `float()` produces from a `[\d.]+` capture is non-negative. -/
theorem pyFloat_nonneg (cap : List Char) (v : ℚ) (h : pyFloat cap = some v) :
    0 ≤ v := by
  rw [pyFloat] at h
  split at h
  · split at h
    · exact absurd h (by simp)
    · cases h
      positivity
  · split at h
    · exact absurd h (by simp)
    · cases h
      positivity
  · exact absurd h (by simp)

/-- Every value the fragment loop produces is non-negative. -/
theorem tryFragmentPatterns_nonneg (lits : List (List Char)) :
    ∀ line v, tryFragmentPatterns lits line = some v → 0 ≤ v := by
  induction lits with
  | nil => intro line v h; simp [tryFragmentPatterns] at h
  | cons lit rest ih =>
    intro line v h
    rw [tryFragmentPatterns] at h
    split at h
    · exact ih line v h
    · split at h
      · rename_i w hw
        cases h
        exact pyFloat_nonneg _ v hw
      · exact ih line v h

/-- Every sample a captured line contributes is non-negative. -/
theorem parsePowerLine_nonneg (line : List Char) :
    ∀ v ∈ parsePowerLine line, 0 ≤ v := by
  intro v hv
  rw [parsePowerLine] at hv
  split at hv
  · split at hv
    · rename_i w hw
      rw [List.mem_singleton] at hv
      subst hv
      exact pyFloat_nonneg _ v hw
    · split at hv
      · rename_i w hw
        rw [List.mem_singleton] at hv
        subst hv
        exact tryFragmentPatterns_nonneg _ line v hw
      · simp at hv
  · split at hv
    · rename_i w hw
      rw [List.mem_singleton] at hv
      subst hv
      exact tryFragmentPatterns_nonneg _ line v hw
    · simp at hv

/-- Every sample the macOS parser extracts is non-negative: the captures are
digit strings. -/
theorem parse_power_samples_nonneg (output_lines : List String) :
    ∀ v ∈ MacosMeter.parse_power_samples output_lines, 0 ≤ v := by
  intro v hv
  rw [MacosMeter.parse_power_samples, List.mem_flatMap] at hv
  obtain ⟨line, _, hvl⟩ := hv
  exact parsePowerLine_nonneg line.data v hvl

/-- C9: under the spec's environment model (wall clock monotone over the
window, non-negative power samples, counter readings below the 2^32
microjoule wrap modulus, positive sampling interval) every backend's `stop()`
satisfies the EnergyResult invariant: non-negative energy and duration and a
positive sampling interval — on the zero/one/many-sample integration paths
and on both wraparound branches. -/
theorem C9_energy_result_invariant (ms : ℕ) (mwSamples wSamples : List ℚ)
    (output_lines : List String) (s e t0 t1 : ℚ)
    (hms : 0 < ms) (ht : t0 ≤ t1)
    (hmw : ∀ p ∈ mwSamples, 0 ≤ p) (hw : ∀ p ∈ wSamples, 0 ≤ p)
    (hs : 0 ≤ s) (hs32 : s < 2 ^ 32) (he : 0 ≤ e) (he32 : e < 2 ^ 32) :
    (NvmlMeter.stop ms mwSamples t0 t1).valid
  ∧ (RocmSmiMeter.stop ms wSamples t0 t1).valid
  ∧ (MacosMeter.stop ms output_lines t0 t1).valid
  ∧ (RaplMeter.stop ms s e t0 t1).valid := by
  have hdur : 0 ≤ t1 - t0 := sub_nonneg.mpr ht
  have hdt : (0 : ℚ) ≤ ((ms : ℚ) / 1000) / 3600 := by positivity
  refine ⟨?_, ?_, ?_, ?_⟩
  · rw [NvmlMeter.stop]
    by_cases hlen : mwSamples.length < 2
    · rw [if_pos hlen]
      exact ⟨le_refl 0, hdur, hms⟩
    · rw [if_neg hlen]
      exact ⟨trapezoid_nonneg _ _ hdt (map_div_nonneg mwSamples hmw), hdur, hms⟩
  · rw [RocmSmiMeter.stop]
    by_cases hlen : wSamples.length < 2
    · rw [if_pos hlen]
      exact ⟨le_refl 0, hdur, hms⟩
    · rw [if_neg hlen]
      exact ⟨trapezoid_nonneg _ _ hdt hw, hdur, hms⟩
  · rw [MacosMeter.stop]
    have hpar := parse_power_samples_nonneg output_lines
    by_cases hlen : (MacosMeter.parse_power_samples output_lines).length < 2
    · rw [if_pos hlen]
      by_cases hone : (MacosMeter.parse_power_samples output_lines).length = 1
      · rw [if_pos hone]
        refine ⟨?_, hdur, hms⟩
        have h0 := getD_nonneg _ hpar 0
        have : (0 : ℚ) ≤ (t1 - t0) / 3600 := by positivity
        exact mul_nonneg (by positivity) this
      · rw [if_neg hone]
        exact ⟨le_refl 0, hdur, hms⟩
    · rw [if_neg hlen]
      exact ⟨trapezoid_nonneg _ _ hdt (map_div_nonneg _ hpar), hdur, hms⟩
  · rw [RaplMeter.stop]
    by_cases hneg : e - s < 0
    · rw [if_pos hneg]
      refine ⟨?_, hdur, hms⟩
      have : (0 : ℚ) ≤ e - s + 2 ^ 32 := by nlinarith
      positivity
    · rw [if_neg hneg]
      refine ⟨?_, hdur, hms⟩
      have : (0 : ℚ) ≤ e - s := not_lt.mp hneg
      positivity

/-- Witness for C9, with the wraparound readings of the spec's example. -/
theorem C9_energy_result_invariant_witness :
    0 < 100 ∧ (0 : ℚ) ≤ 1
  ∧ (∀ p ∈ ([1, 2] : List ℚ), 0 ≤ p) ∧ (∀ p ∈ ([] : List ℚ), 0 ≤ p)
  ∧ (0 : ℚ) ≤ 4000000000 ∧ (4000000000 : ℚ) < 2 ^ 32
  ∧ (0 : ℚ) ≤ 1000000000 ∧ (1000000000 : ℚ) < 2 ^ 32
  ∧ ((NvmlMeter.stop 100 [1, 2] 0 1).valid
      ∧ (RocmSmiMeter.stop 100 [] 0 1).valid
      ∧ (MacosMeter.stop 100 [] 0 1).valid
      ∧ (RaplMeter.stop 100 4000000000 1000000000 0 1).valid) :=
  ⟨by decide, by norm_num, by norm_num, by norm_num, by norm_num, by norm_num,
    by norm_num, by norm_num,
    C9_energy_result_invariant 100 [1, 2] [] [] 4000000000 1000000000 0 1
      (by decide) (by norm_num) (by norm_num) (by norm_num) (by norm_num)
      (by norm_num) (by norm_num) (by norm_num)⟩

/-- C6: no backend's availability probe can raise: for every probe outcome
(missing import, failing init/count/shutdown calls, zero devices, missing
binary, missing powercap root or counter entries, any platform) the probe
returns an ordinary boolean, every probe-time exception having been converted
to `false`. -/
theorem C6_is_available_never_raises (env : NvmlEnv) (whichRocmSmi : Option String)
    (powercapExists : Bool) (rapl_zones : List RaplZone) (platform : String) :
    (NvmlMeter.is_available env).isOk = true
  ∧ (RocmSmiMeter.is_available whichRocmSmi).isOk = true
  ∧ (RaplMeter.is_available powercapExists rapl_zones).isOk = true
  ∧ (MacosMeter.is_available_probe platform).isOk = true := by
  refine ⟨?_, rfl, rfl, rfl⟩
  obtain ⟨na, ir, dc, sr⟩ := env
  cases na <;> cases ir <;> cases dc <;> cases sr <;> rfl

/-- C7: when the RAPL counter entry exists (a zone is found) but is not
readable, `start()` fails with the distinct PermissionError — never the
generic RuntimeError — and when it is readable the permission check never
fires: no PermissionError is possible. -/
theorem C7_permission_denied_distinct (powercapExists : Bool)
    (rapl_zones : List RaplZone) (t : ℚ) (zone : RaplZone)
    (hfind : RaplMeter.findZone powercapExists rapl_zones = some zone) :
    (zone.energy_uj_readable = false →
      RaplMeter.start powercapExists rapl_zones t
        = Except.error (PyError.permissionError "Permission denied reading energy_uj."))
  ∧ (zone.energy_uj_readable = true →
      ∀ msg, RaplMeter.start powercapExists rapl_zones t
        ≠ Except.error (PyError.permissionError msg)) := by
  rw [RaplMeter.start, hfind]
  dsimp only
  constructor
  · intro hr
    rw [if_pos hr]
  · intro hr msg
    rw [if_neg (by simp [hr])]
    rcases hread : zone.readResult with e | v <;> simp

/-- Witness for C7: a single zone whose counter entry exists but is
unreadable. -/
theorem C7_permission_denied_distinct_witness :
    RaplMeter.findZone true [⟨true, false, Except.ok 0⟩]
        = some ⟨true, false, Except.ok 0⟩
  ∧ (((⟨true, false, Except.ok 0⟩ : RaplZone).energy_uj_readable = false →
        RaplMeter.start true [⟨true, false, Except.ok 0⟩] 0
          = Except.error (PyError.permissionError "Permission denied reading energy_uj."))
      ∧ ((⟨true, false, Except.ok 0⟩ : RaplZone).energy_uj_readable = true →
        ∀ msg, RaplMeter.start true [⟨true, false, Except.ok 0⟩] 0
          ≠ Except.error (PyError.permissionError msg))) :=
  ⟨rfl,
    C7_permission_denied_distinct true [⟨true, false, Except.ok 0⟩] 0
      ⟨true, false, Except.ok 0⟩ rfl⟩
